import Mathlib

/-!
Shallow embedding of `src/extensions/site/embedded-scripts/webmcp/webmcp-tools.ts`
(the WebMCP site-tools script): the credential gate / client factory state
machine, the capability and page-context detectors, the tool-registration
list built by `initWebMCP`, and the `execute` handlers of the registered
tools. Remote SDK calls, DOM reads and `JSON.parse` are modelled as explicit
input parameters (their outcomes); JavaScript exceptions and promise
rejections are modelled with `Except`/result types; JavaScript truthiness
(`x || d`, `if (x)`) is embedded explicitly.
-/

namespace WebMCP

/-- JavaScript `hay.includes(needle)` on lists of characters: `needle` occurs
as a contiguous subsequence of `hay`. -/
def containsSeq (needle : List Char) : List Char → Bool
  | [] => needle.isPrefixOf []
  | c :: rest => needle.isPrefixOf (c :: rest) || containsSeq needle rest

/-- JavaScript `hay.includes(needle)` on strings. -/
def jsIncludes (hay needle : String) : Bool :=
  containsSeq needle.toList hay.toList

/-- JavaScript `toLowerCase()` (ASCII range, which covers every keyword and
identifier the detectors compare against). -/
def strToLower (s : String) : String :=
  ⟨s.data.map Char.toLower⟩

/-- JavaScript `x || d` on numbers coming from an optional parameter:
`undefined` and `0` are falsy and give the default. -/
def jsOrNum (x : Option Int) (d : Int) : Int :=
  match x with
  | none => d
  | some v => if v = 0 then d else v

/-- JavaScript truthiness of an optional string: `undefined` and `''` are falsy. -/
def jsTruthyStr (s : Option String) : Bool :=
  match s with
  | none => false
  | some v => v != ""

/-- `WIX_STORES_APP_ID` from the source. -/
def WIX_STORES_APP_ID : String := "1380b703-ce81-ff05-f115-39571d94dfcd"

/-- `WIX_BLOG_APP_ID` from the source. -/
def WIX_BLOG_APP_ID : String := "14bcded7-0066-7c35-14d7-466cb3f09103"

/-- `WIX_MEMBERS_APP_ID` from the source. -/
def WIX_MEMBERS_APP_ID : String := "14cc59bc-f0b7-15b8-e1c7-89ce41d0e0c9"

/-- The rejection message of `waitForAuth`'s timeout. -/
def AUTH_TIMEOUT_MSG : String :=
  "Auth token not injected within timeout. Make sure the embedded script is configured correctly with injectAccessTokenFunction exported."

/-- `InstalledApps` from the source. -/
structure InstalledApps where
  hasStores : Bool
  hasBlog : Bool
  hasMembers : Bool
deriving DecidableEq, Repr

/-- `PageContext` from the source. -/
structure PageContext where
  isProductPage : Bool
  isCartPage : Bool
  isBlogPage : Bool
  isMemberArea : Bool
deriving DecidableEq, Repr

/-- A page of the site structure response: only the `applicationId` field is
read by `detectInstalledAppsFromAPI`. -/
structure SitePage where
  applicationId : Option String
deriving DecidableEq, Repr

/-- An entry of `structure.prefixes`; the source reads its (optional) field
named `prefix`, which is a Lean keyword, so it is called `prefixPath` here. -/
structure RoutingEntry where
  prefixPath : Option String
deriving DecidableEq, Repr

/-- The site structure response, restricted to the fields the detector reads. -/
structure SiteStructure where
  pages : List SitePage
  prefixes : Option (List RoutingEntry)
deriving DecidableEq, Repr

/-- `detectInstalledAppsFromAPI` from the source. Its single remote call
(`getSiteStructure`, made after `waitForAuth`) is modelled by the `res`
argument; the `catch` branch maps any failure to all-false flags. The
source collects `applicationId`s into a `Set` and tests membership with
`has`; membership in the list of collected ids is the same test. -/
def detectInstalledAppsFromAPI (res : Except String SiteStructure) : InstalledApps :=
  match res with
  | .error _ => { hasStores := false, hasBlog := false, hasMembers := false }
  | .ok st =>
    let appIds : List String := st.pages.filterMap (·.applicationId)
    let prefixPaths : List String :=
      (st.prefixes.getD []).map (fun p => strToLower (p.prefixPath.getD ""))
    let hasStores := appIds.contains WIX_STORES_APP_ID ||
      prefixPaths.any (fun p => jsIncludes p "product" || jsIncludes p "shop" ||
        jsIncludes p "store" || jsIncludes p "cart")
    let hasBlog := appIds.contains WIX_BLOG_APP_ID ||
      prefixPaths.any (fun p => jsIncludes p "blog" || jsIncludes p "post")
    let hasMembers := appIds.contains WIX_MEMBERS_APP_ID ||
      prefixPaths.any (fun p => jsIncludes p "account" || jsIncludes p "member" ||
        jsIncludes p "profile")
    { hasStores := hasStores, hasBlog := hasBlog, hasMembers := hasMembers }

/-- The DOM signals `detectPageContext` queries: presence of the selectors
`[data-hook="product-page"]`, `.product-page`, `[data-hook="cart-page"]`,
`[data-hook="blog-post"]`, `.blog-post-page`. -/
structure DomSignals where
  productPageHook : Bool
  productPageClass : Bool
  cartPageHook : Bool
  blogPostHook : Bool
  blogPostPageClass : Bool
deriving DecidableEq, Repr

/-- No DOM signal present. -/
def noDomSignals : DomSignals :=
  { productPageHook := false, productPageClass := false, cartPageHook := false,
    blogPostHook := false, blogPostPageClass := false }

/-- `detectPageContext` from the source: a function of `window.location.pathname`
and the listed DOM queries only. (The source also lowercases
`window.location.href` into a local `url` that is never used.) -/
def detectPageContext (pathname : String) (dom : DomSignals) : PageContext :=
  let p := strToLower pathname
  { isProductPage := jsIncludes p "/product/" || jsIncludes p "/product-page/" ||
      dom.productPageHook || dom.productPageClass
    isCartPage := jsIncludes p "/cart" || jsIncludes p "/checkout" || dom.cartPageHook
    isBlogPage := jsIncludes p "/blog" || jsIncludes p "/post/" ||
      dom.blogPostHook || dom.blogPostPageClass
    isMemberArea := jsIncludes p "/account" || jsIncludes p "/my-account" ||
      jsIncludes p "/members" || jsIncludes p "/profile" }

/-- The names of the six commerce tools registered under `installedApps.hasStores`. -/
def storeToolNames : List String :=
  ["wix_search_products", "wix_get_product", "wix_list_products",
   "wix_add_to_cart", "wix_get_cart", "wix_get_cart_totals"]

/-- The `registeredTools` list produced by `initWebMCP`, as a function of the
detected apps and page context. The two baseline tools are always pushed
(their `registerTool` calls are wrapped in try/catch against a throwing host
registry; the host `registerTool` is modelled as non-throwing). The single
blog-post tool is additionally gated on
`pageContext.isBlogPage || !pageContext.isProductPage`. -/
def initRegisteredTools (apps : InstalledApps) (ctx : PageContext) : List String :=
  ["wix_get_site_structure", "wix_get_current_page"] ++
  (if apps.hasBlog then
      ["wix_get_blog_posts"] ++
      (if ctx.isBlogPage || !ctx.isProductPage then ["wix_get_blog_post"] else [])
    else []) ++
  (if apps.hasMembers then ["wix_get_member_info"] else []) ++
  (if apps.hasStores then storeToolNames else [])

/-! ## Remote response shapes and the formatting helpers -/

/-- `priceData.formatted` on a product. -/
structure PriceFormatted where
  price : Option String
  discountedPrice : Option String
deriving DecidableEq, Repr

/-- `priceData` on a product. -/
structure PriceData where
  formatted : Option PriceFormatted
  currency : Option String
deriving DecidableEq, Repr

/-- `image` on a media item. -/
structure MediaImage where
  url : Option String
deriving DecidableEq, Repr

/-- An entry of `media.items` on a product. -/
structure MediaItem where
  image : Option MediaImage
deriving DecidableEq, Repr

/-- `media` on a product. -/
structure ProductMedia where
  items : Option (List MediaItem)
deriving DecidableEq, Repr

/-- `stock` on a product. -/
structure ProductStock where
  inventoryStatus : Option String
  inStock : Option Bool
deriving DecidableEq, Repr

/-- An entry of `productOptions[i].choices`. -/
structure OptionChoice where
  value : Option String
deriving DecidableEq, Repr

/-- An entry of `productOptions`. -/
structure ProductOption where
  name : Option String
  choices : Option (List OptionChoice)
deriving DecidableEq, Repr

/-- `productPageUrl` on a product. -/
structure PageUrl where
  base : Option String
deriving DecidableEq, Repr

/-- A product as returned by the platform (Catalog V1 fields read by
`formatProduct`; the source field `_id` is called `id` here). -/
structure Product where
  id : Option String
  name : Option String
  description : Option String
  priceData : Option PriceData
  sku : Option String
  visible : Option Bool
  productType : Option String
  slug : Option String
  productPageUrl : Option PageUrl
  media : Option ProductMedia
  stock : Option ProductStock
  productOptions : Option (List ProductOption)
  brand : Option String
  ribbon : Option String
deriving DecidableEq, Repr

/-- `inventory` on a formatted product. -/
structure FormattedInventory where
  status : Option String
  inStock : Option Bool
deriving DecidableEq, Repr

/-- An entry of `options` on a formatted product. -/
structure FormattedOption where
  name : Option String
  choices : Option (List (Option String))
deriving DecidableEq, Repr

/-- `FormattedProduct` from the source. -/
structure FormattedProduct where
  id : Option String
  name : Option String
  description : Option String
  price : Option String
  compareAtPrice : Option String
  currency : Option String
  sku : Option String
  visible : Option Bool
  productType : Option String
  slug : Option String
  url : Option String
  media : Option (List (Option String))
  inventory : FormattedInventory
  options : Option (List FormattedOption)
  brand : Option String
  ribbon : Option String
deriving DecidableEq, Repr

/-- `formatProduct` from the source; optional chaining (`?.`) becomes
`Option.bind` / `Option.map`. -/
def formatProduct (product : Product) : FormattedProduct :=
  { id := product.id
    name := product.name
    description := product.description
    price := product.priceData.bind (fun pd => pd.formatted.bind (·.price))
    compareAtPrice := product.priceData.bind (fun pd => pd.formatted.bind (·.discountedPrice))
    currency := product.priceData.bind (·.currency)
    sku := product.sku
    visible := product.visible
    productType := product.productType
    slug := product.slug
    url := product.productPageUrl.bind (·.base)
    media := (product.media.bind (·.items)).map
      (fun items => items.map (fun it => it.image.bind (·.url)))
    inventory := { status := product.stock.bind (·.inventoryStatus)
                   inStock := product.stock.bind (·.inStock) }
    options := product.productOptions.map (fun opts => opts.map (fun opt =>
      { name := opt.name
        choices := opt.choices.map (fun cs => cs.map (·.value)) }))
    brand := product.brand
    ribbon := product.ribbon }

/-- A cart line item as returned by the platform (already flattened to the
leaf fields `formatCart` reads: `productName.original`,
`price.formattedAmount`, `fullPrice.formattedAmount`, `image.url`). -/
structure CartLineItem where
  id : Option String
  quantity : Option Int
  productName : Option String
  price : Option String
  fullPrice : Option String
  image : Option String
deriving DecidableEq, Repr

/-- A cart as returned by the platform (source field `_id` is `id` here). -/
structure Cart where
  id : Option String
  lineItems : Option (List CartLineItem)
  currency : Option String
deriving DecidableEq, Repr

/-- An item of `FormattedCart.items`. -/
structure FormattedCartItem where
  id : Option String
  quantity : Option Int
  productName : Option String
  price : Option String
  fullPrice : Option String
  image : Option String
deriving DecidableEq, Repr

/-- `FormattedCart` from the source (`id` and `currency` may be absent). -/
structure FormattedCart where
  id : Option String
  items : List FormattedCartItem
  totalQuantity : Int
  currency : Option String
deriving DecidableEq, Repr

/-- `formatCart` from the source: an absent cart becomes
`{items: [], totalQuantity: 0}`; `lineItems?.map(...) || []` and the
`reduce` with `(item.quantity as number) || 0` are embedded directly. -/
def formatCart (cart : Option Cart) : FormattedCart :=
  match cart with
  | none => { id := none, items := [], totalQuantity := 0, currency := none }
  | some c =>
    { id := c.id
      items := (c.lineItems.getD []).map (fun it =>
        { id := it.id, quantity := it.quantity, productName := it.productName
          price := it.price, fullPrice := it.fullPrice, image := it.image })
      totalQuantity := (c.lineItems.getD []).foldl
        (fun sum it => sum + jsOrNum it.quantity 0) 0
      currency := c.currency }

/-- JavaScript `a || b` on optional strings (an empty string is falsy). -/
def jsOrStr (a b : Option String) : Option String :=
  match a with
  | some s => if s = "" then b else some s
  | none => b

/-- A blog post as returned by the platform (fields read by `formatBlogPost`;
source `_id` is `id` here; `coverMedia.image` is kept as an opaque string). -/
structure BlogPost where
  id : Option String
  title : Option String
  excerpt : Option String
  plainContent : Option String
  contentText : Option String
  url : Option String
  slug : Option String
  coverMediaImage : Option String
  memberId : Option String
  firstPublishedDate : Option String
  lastPublishedDate : Option String
  categoryIds : Option (List String)
  tagIds : Option (List String)
  featured : Option Bool
  pinned : Option Bool
  commentingEnabled : Option Bool
  minutesToRead : Option Int
deriving DecidableEq, Repr

/-- The shape produced by `formatBlogPost`. -/
structure FormattedBlogPost where
  id : Option String
  title : Option String
  excerpt : Option String
  content : Option String
  url : Option String
  slug : Option String
  coverImage : Option String
  author : Option String
  publishedDate : Option String
  lastUpdated : Option String
  categories : Option (List String)
  tags : Option (List String)
  featured : Option Bool
  pinned : Option Bool
  commentingEnabled : Option Bool
  minutesToRead : Option Int
deriving DecidableEq, Repr

/-- `formatBlogPost` from the source (`content` is
`post.plainContent || post.contentText`). -/
def formatBlogPost (post : BlogPost) : FormattedBlogPost :=
  { id := post.id
    title := post.title
    excerpt := post.excerpt
    content := jsOrStr post.plainContent post.contentText
    url := post.url
    slug := post.slug
    coverImage := post.coverMediaImage
    author := post.memberId
    publishedDate := post.firstPublishedDate
    lastUpdated := post.lastPublishedDate
    categories := post.categoryIds
    tags := post.tagIds
    featured := post.featured
    pinned := post.pinned
    commentingEnabled := post.commentingEnabled
    minutesToRead := post.minutesToRead }

/-- A member as returned by `getMyMember` (fields the handler reshapes;
source `_id` is `id`, `_createdDate` is `createdDate`; `profile` is opaque). -/
structure Member where
  id : Option String
  loginEmail : Option String
  status : Option String
  contactId : Option String
  profile : Option String
  privacyStatus : Option String
  activityStatus : Option String
  createdDate : Option String
deriving DecidableEq, Repr

/-! ## The tool execute handlers

Each handler is `async (params) => { try { await waitForAuth(); ...remote
call...; return {success: true, ...} } catch (error) { ...return {success:
false, error} } }`. The `waitForAuth` outcome is the `auth` argument (its
rejection carries the timeout message); each remote SDK call is an argument
giving the call's outcome; whatever the try block throws is caught and
mapped by the catch branch. A handler therefore always returns a value of
`ToolResult`, never throws. -/

/-- The uniform result shape `{success: true, <payload>} | {success: false, error}`. -/
inductive ToolResult (α : Type) where
  | success (payload : α)
  | failure (error : String)
deriving DecidableEq, Repr

/-- Payload of `wix_get_blog_posts`. -/
structure BlogListPayload where
  posts : List FormattedBlogPost
  totalCount : Nat
  offset : Int
  hasMore : Bool
deriving DecidableEq, Repr

/-- `wix_get_blog_posts.execute`: clamps `limit` to
`Math.min((params.limit as number) || 10, 100)`, defaults `offset` to 0,
then calls `posts.listPosts({paging: {limit, offset}, ...})`. -/
def wixGetBlogPostsExec (auth : Except String Unit) (limitParam offsetParam : Option Int)
    (listPosts : Int → Int → Except String (List BlogPost)) : ToolResult BlogListPayload :=
  match auth with
  | .error msg => .failure msg
  | .ok _ =>
    let limit := min (jsOrNum limitParam 10) 100
    let offset := jsOrNum offsetParam 0
    match listPosts limit offset with
    | .error msg => .failure msg
    | .ok ps =>
      .success { posts := ps.map formatBlogPost
                 totalCount := ps.length
                 offset := offset
                 hasMore := (ps.length : Int) == limit }

/-- `wix_get_blog_post.execute`: fetches one post by id; an absent
`result.post` is surfaced as a `success:false` "Blog post not found". -/
def wixGetBlogPostExec (auth : Except String Unit) (postId : String)
    (getPost : String → Except String (Option BlogPost)) : ToolResult FormattedBlogPost :=
  match auth with
  | .error msg => .failure msg
  | .ok _ =>
    match getPost postId with
    | .error msg => .failure msg
    | .ok none => .failure "Blog post not found"
    | .ok (some p) => .success (formatBlogPost p)

/-- Payload of `wix_get_member_info`. -/
structure MemberInfoPayload where
  loggedIn : Bool
  member : Option Member
deriving DecidableEq, Repr

/-- `wix_get_member_info.execute`: an absent `result.member` is a logged-out
success; a caught error whose message contains "401" or "403" is also a
logged-out success; any other caught error is a failure. (The reshaping of
the member copies each listed field one-to-one.) -/
def wixGetMemberInfoExec (auth : Except String Unit)
    (getMyMember : Except String (Option Member)) : ToolResult MemberInfoPayload :=
  match (do let _ ← auth; getMyMember : Except String (Option Member)) with
  | .ok none => .success { loggedIn := false, member := none }
  | .ok (some m) => .success { loggedIn := true, member := some m }
  | .error msg =>
    if jsIncludes msg "401" || jsIncludes msg "403" then
      .success { loggedIn := false, member := none }
    else
      .failure msg

/-- Payload of `wix_search_products`. -/
structure ProductSearchPayload where
  products : List FormattedProduct
  totalCount : Nat
deriving DecidableEq, Repr

/-- `wix_search_products.execute`: clamps `limit` as the blog list does, then
runs `queryProducts().startsWith('name', query).limit(limit).find()`
(modelled as `queryProducts query limit`). -/
def wixSearchProductsExec (auth : Except String Unit) (query : String)
    (limitParam : Option Int)
    (queryProducts : String → Int → Except String (List Product)) :
    ToolResult ProductSearchPayload :=
  match auth with
  | .error msg => .failure msg
  | .ok _ =>
    let limit := min (jsOrNum limitParam 10) 100
    match queryProducts query limit with
    | .error msg => .failure msg
    | .ok items =>
      .success { products := items.map formatProduct, totalCount := items.length }

/-- `wix_get_product.execute`: fetches one product by id; an absent
`result.product` is surfaced as a `success:false` "Product not found". -/
def wixGetProductExec (auth : Except String Unit) (productId : String)
    (getProduct : String → Except String (Option Product)) : ToolResult FormattedProduct :=
  match auth with
  | .error msg => .failure msg
  | .ok _ =>
    match getProduct productId with
    | .error msg => .failure msg
    | .ok none => .failure "Product not found"
    | .ok (some p) => .success (formatProduct p)

/-- Payload of `wix_list_products`. -/
structure ProductListPayload where
  products : List FormattedProduct
  totalCount : Nat
  offset : Int
  hasMore : Bool
deriving DecidableEq, Repr

/-- `wix_list_products.execute`: clamps `limit`, defaults `offset`, then runs
`queryProducts().skip(offset).limit(limit).find()` (modelled as
`queryProducts limit offset`). -/
def wixListProductsExec (auth : Except String Unit) (limitParam offsetParam : Option Int)
    (queryProducts : Int → Int → Except String (List Product)) :
    ToolResult ProductListPayload :=
  match auth with
  | .error msg => .failure msg
  | .ok _ =>
    let limit := min (jsOrNum limitParam 10) 100
    let offset := jsOrNum offsetParam 0
    match queryProducts limit offset with
    | .error msg => .failure msg
    | .ok items =>
      .success { products := items.map formatProduct
                 totalCount := items.length
                 offset := offset
                 hasMore := (items.length : Int) == limit }

/-- `catalogReference` of a line item sent by `wix_add_to_cart`. -/
structure CatalogReference where
  appId : String
  catalogItemId : String
  options : Option (List (String × String))
deriving DecidableEq, Repr

/-- A line item sent to `addToCurrentCart`. -/
structure CartLineItemRequest where
  catalogReference : CatalogReference
  quantity : Int
deriving DecidableEq, Repr

/-- `wix_add_to_cart.execute`: defaults `quantity` to 1 via `|| 1`; if the
`options` parameter is truthy it is `JSON.parse`d (the parse outcome is the
`parseJson` argument; a parse exception yields the fixed invalid-options
failure); then `addToCurrentCart({lineItems})` is called and its `cart`
field formatted. -/
def wixAddToCartExec (auth : Except String Unit) (productId : String)
    (quantityParam : Option Int) (optionsParam : Option String)
    (parseJson : String → Option (List (String × String)))
    (addToCurrentCart : List CartLineItemRequest → Except String (Option Cart)) :
    ToolResult FormattedCart :=
  match auth with
  | .error msg => .failure msg
  | .ok _ =>
    let quantity := jsOrNum quantityParam 1
    let parsed : Except String (Option (List (String × String))) :=
      if jsTruthyStr optionsParam then
        match parseJson (optionsParam.getD "") with
        | none => .error "Invalid options format. Must be valid JSON."
        | some v => .ok (some v)
      else .ok none
    match parsed with
    | .error msg => .failure msg
    | .ok variantOptions =>
      let lineItems := [{ catalogReference :=
                            { appId := WIX_STORES_APP_ID
                              catalogItemId := productId
                              options := variantOptions }
                          quantity := quantity : CartLineItemRequest }]
      match addToCurrentCart lineItems with
      | .error msg => .failure msg
      | .ok cart => .success (formatCart cart)

/-- `wix_get_cart.execute`: fetches the current cart; a caught error whose
message contains "404" becomes a successful empty cart
`{items: [], totalQuantity: 0}`; any other caught error is a failure. The
catch wraps the whole try block, including the `waitForAuth` await. -/
def wixGetCartExec (auth : Except String Unit) (getCurrentCart : Except String Cart) :
    ToolResult FormattedCart :=
  match (do let _ ← auth; getCurrentCart : Except String Cart) with
  | .ok cart => .success (formatCart (some cart))
  | .error msg =>
    if jsIncludes msg "404" then
      .success { id := none, items := [], totalQuantity := 0, currency := none }
    else
      .failure msg

/-- `priceSummary` of the cart-totals estimate (flattened to the
`formattedAmount` leaves the handler reads). -/
structure PriceSummary where
  subtotal : Option String
  total : Option String
  tax : Option String
  discount : Option String
deriving DecidableEq, Repr

/-- The cart-totals estimate response. -/
structure CartTotalsResponse where
  priceSummary : Option PriceSummary
  currency : Option String
deriving DecidableEq, Repr

/-- The `totals` payload of `wix_get_cart_totals`. -/
structure FormattedTotals where
  subtotal : Option String
  total : Option String
  tax : Option String
  discount : Option String
  currency : Option String
deriving DecidableEq, Repr

/-- `wix_get_cart_totals.execute`: estimates the current cart totals; a
caught error whose message contains "404" becomes a successful zeroed
totals object (with no `currency` field); any other caught error is a
failure. -/
def wixGetCartTotalsExec (auth : Except String Unit)
    (estimateTotals : Except String CartTotalsResponse) : ToolResult FormattedTotals :=
  match (do let _ ← auth; estimateTotals : Except String CartTotalsResponse) with
  | .ok r =>
    .success { subtotal := r.priceSummary.bind (·.subtotal)
               total := r.priceSummary.bind (·.total)
               tax := r.priceSummary.bind (·.tax)
               discount := r.priceSummary.bind (·.discount)
               currency := r.currency }
  | .error msg =>
    if jsIncludes msg "404" then
      .success { subtotal := some "$0.00", total := some "$0.00"
                 tax := some "$0.00", discount := some "$0.00", currency := none }
    else
      .failure msg

/-! ## The credential gate and client factory state machine

Module-level mutable state of the script: `wixClient` (here: whether it
exists, and the last token passed to its access-token injector),
`authReady`, `authReadyResolvers`, `pendingAccessToken`. Each promise
returned by `waitForAuth` is a waiter, numbered by creation order; its
state records the promise's settlement, whether its timeout timer is still
armed, and how many times its `resolve` function has been called (calling
`resolve` on an already settled promise is a no-op on the promise state but
still counts as a call). -/

/-- Settlement state of a waiter's promise. -/
inductive PromiseState where
  | pending
  | fulfilled
  | rejected (msg : String)
deriving DecidableEq, Repr

/-- A function value that can be compared against entries of
`authReadyResolvers`. `waitForAuth` pushes the wrapper closure
`() => { clearTimeout(timeout); resolve(); }` for its waiter, while the
timeout callback searches the array for the bare `resolve` function of the
same waiter; in JavaScript these are two distinct function values, so they
are two distinct constructors here. -/
inductive ResolverFn where
  | wrapper (wid : Nat)
  | bare (wid : Nat)
deriving DecidableEq, Repr

/-- One `waitForAuth` promise. -/
structure Waiter where
  promise : PromiseState
  timerActive : Bool
  resolveCalls : Nat
deriving DecidableEq, Repr

/-- The module-level state of the script. -/
structure ScriptState where
  clientExists : Bool
  clientToken : Option String
  authReady : Bool
  authReadyResolvers : List ResolverFn
  pendingAccessToken : Option String
  waiters : List Waiter
deriving DecidableEq, Repr

/-- The state right after module load. -/
def initialState : ScriptState :=
  { clientExists := false, clientToken := none, authReady := false,
    authReadyResolvers := [], pendingAccessToken := none, waiters := [] }

/-- Apply `f` to the waiter at index `wid` (out-of-range: no change). -/
def updateWaiter : List Waiter → Nat → (Waiter → Waiter) → List Waiter
  | [], _, _ => []
  | w :: ws, 0, f => f w :: ws
  | w :: ws, n + 1, f => w :: updateWaiter ws n f

/-- Calling `resolve()` of waiter `wid`: the call is counted, and a pending
promise becomes fulfilled (a settled one is unchanged). -/
def callResolve (w : Waiter) : Waiter :=
  { w with resolveCalls := w.resolveCalls + 1
           promise := match w.promise with
             | .pending => .fulfilled
             | p => p }

/-- Invoking a function value taken from `authReadyResolvers`: the wrapper
clears the waiter's timeout and calls its `resolve`; the bare function is
`resolve` itself. -/
def invokeResolver (ws : List Waiter) : ResolverFn → List Waiter
  | .wrapper wid => updateWaiter ws wid (fun w => callResolve { w with timerActive := false })
  | .bare wid => updateWaiter ws wid callResolve

/-- `authReadyResolvers.forEach(resolve => resolve())` followed by
`authReadyResolvers = []`. -/
def resolveAllWaiters (s : ScriptState) : ScriptState :=
  { s with waiters := s.authReadyResolvers.foldl invokeResolver s.waiters
           authReadyResolvers := [] }

/-- `getWixClient()` from the source: creates the client on first call; if a
pending access token is present (JavaScript truthiness: a stored empty
string does not count), injects it, sets `authReady`, and resolves and
clears the waiter list. -/
def stepGetClient (s : ScriptState) : ScriptState :=
  if s.clientExists then s
  else
    let s1 := { s with clientExists := true }
    if jsTruthyStr s1.pendingAccessToken then
      resolveAllWaiters
        { s1 with clientToken := s1.pendingAccessToken, authReady := true }
    else s1

/-- `injectAccessTokenFunction(token)` from the source: with no client yet,
only stores the token; with a client, injects the token, sets `authReady`,
and resolves and clears the waiter list. -/
def stepInject (s : ScriptState) (token : String) : ScriptState :=
  if !s.clientExists then
    { s with pendingAccessToken := some token }
  else
    resolveAllWaiters { s with clientToken := some token, authReady := true }

/-- A fresh pending waiter with an armed timeout. -/
def freshWaiter : Waiter :=
  { promise := .pending, timerActive := true, resolveCalls := 0 }

/-- `waitForAuth()` from the source: if `authReady`, the returned promise is
already fulfilled and nothing is registered; otherwise a new waiter is
created with an armed timeout and its wrapper closure is pushed onto
`authReadyResolvers`. -/
def stepWait (s : ScriptState) : ScriptState :=
  if s.authReady then
    { s with waiters := s.waiters ++
        [{ promise := .fulfilled, timerActive := false, resolveCalls := 0 }] }
  else
    { s with waiters := s.waiters ++ [freshWaiter]
             authReadyResolvers := s.authReadyResolvers ++ [.wrapper s.waiters.length] }

/-- `indexOf` + `splice(idx, 1)` when found: remove the first occurrence of
`target`, or leave the list unchanged when `indexOf` returns -1. -/
def spliceOutFirst : List ResolverFn → ResolverFn → List ResolverFn
  | [], _ => []
  | r :: rest, target => if r = target then rest else r :: spliceOutFirst rest target

/-- The timeout callback of waiter `wid` firing (possible only while that
waiter's timer is still armed): it runs
`const idx = authReadyResolvers.indexOf(resolve); if (idx >= 0) splice(idx, 1)`
— searching for the bare `resolve` function — and then rejects the promise
with the timeout message. -/
def stepTimerFire (s : ScriptState) (wid : Nat) : ScriptState :=
  match s.waiters[wid]? with
  | none => s
  | some w =>
    if w.timerActive then
      { s with authReadyResolvers := spliceOutFirst s.authReadyResolvers (.bare wid)
               waiters := updateWaiter s.waiters wid (fun w0 =>
                 { w0 with timerActive := false
                           promise := match w0.promise with
                             | .pending => .rejected AUTH_TIMEOUT_MSG
                             | p => p }) }
    else s

/-- An event of the script's event loop that touches the credential state. -/
inductive Event where
  | getClient
  | inject (token : String)
  | wait
  | timerFire (wid : Nat)
deriving DecidableEq, Repr

/-- One event step. -/
def step (s : ScriptState) : Event → ScriptState
  | .getClient => stepGetClient s
  | .inject t => stepInject s t
  | .wait => stepWait s
  | .timerFire wid => stepTimerFire s wid

/-- Run a sequence of events. -/
def run (s : ScriptState) : List Event → ScriptState
  | [] => s
  | e :: es => run (step s e) es

/-- Whether an event list contains an injection. -/
def hasInject (es : List Event) : Bool :=
  es.any (fun e => match e with | .inject _ => true | _ => false)

/-! ## Helper lemmas -/

theorem except_bind_ok {α β : Type} (a : α) (f : α → Except String β) :
    (Except.ok a >>= f) = f a := rfl

theorem except_bind_error {α β : Type} (e : String) (f : α → Except String β) :
    ((Except.error e : Except String α) >>= f) = Except.error e := rfl

theorem run_append (s : ScriptState) (es fs : List Event) :
    run s (es ++ fs) = run (run s es) fs := by
  induction es generalizing s with
  | nil => rfl
  | cons e es ih => simp [run, ih]

theorem updateWaiter_append (ws tail : List Waiter) (w : Waiter) (f : Waiter → Waiter) :
    updateWaiter (ws ++ w :: tail) ws.length f = ws ++ f w :: tail := by
  induction ws with
  | nil => rfl
  | cons a as ih => simp [updateWaiter, ih]

theorem concat_getElem_length (l : List Waiter) (a : Waiter) :
    (l ++ [a])[l.length]? = some a := by
  induction l with
  | nil => rfl
  | cons x xs ih => simp [ih]

/-- The waiter state after its wrapper has been invoked once. -/
def resolvedWaiter : Waiter :=
  { promise := .fulfilled, timerActive := false, resolveCalls := 1 }

theorem foldl_invoke_wrappers (n : Nat) (ws : List Waiter) :
    ((List.range' ws.length n).map ResolverFn.wrapper).foldl invokeResolver
      (ws ++ List.replicate n freshWaiter) = ws ++ List.replicate n resolvedWaiter := by
  induction n generalizing ws with
  | zero => simp
  | succ n ih =>
    rw [List.range'_succ, List.map_cons, List.foldl_cons, List.replicate_succ]
    have h1 : invokeResolver (ws ++ freshWaiter :: List.replicate n freshWaiter)
        (ResolverFn.wrapper ws.length) =
        ws ++ resolvedWaiter :: List.replicate n freshWaiter := by
      rw [invokeResolver, updateWaiter_append]
      rfl
    rw [h1, List.replicate_succ]
    have h2 := ih (ws ++ [resolvedWaiter])
    simpa [List.append_assoc, List.length_append] using h2

/-- The state after `n` calls of `waitForAuth` from the initial state. -/
def waitingState (n : Nat) : ScriptState :=
  { clientExists := false, clientToken := none, authReady := false,
    authReadyResolvers := (List.range n).map ResolverFn.wrapper,
    pendingAccessToken := none, waiters := List.replicate n freshWaiter }

theorem run_waits (n : Nat) :
    run initialState (List.replicate n Event.wait) = waitingState n := by
  induction n with
  | zero => rfl
  | succ n ih =>
    rw [List.replicate_succ', run_append, ih]
    show step (waitingState n) Event.wait = waitingState (n + 1)
    simp [step, stepWait, waitingState, List.replicate_succ', List.range_succ]

theorem fold_wrappers_from_zero (n : Nat) :
    ((List.range n).map ResolverFn.wrapper).foldl invokeResolver
      (List.replicate n freshWaiter) = List.replicate n resolvedWaiter := by
  have h := foldl_invoke_wrappers n []
  simpa [List.range_eq_range'] using h

/-- The credential-state invariant: `authReady` agrees with "the client's
access-token injector has been called", and an injected token implies the
client exists. -/
def GoodState (s : ScriptState) : Prop :=
  s.authReady = s.clientToken.isSome ∧ (s.clientToken.isSome = true → s.clientExists = true)

theorem jsTruthyStr_isSome {o : Option String} (h : jsTruthyStr o = true) :
    o.isSome = true := by
  cases o with
  | none => simp [jsTruthyStr] at h
  | some v => rfl

theorem step_good (s : ScriptState) (e : Event) (h : GoodState s) : GoodState (step s e) := by
  obtain ⟨h1, h2⟩ := h
  cases e with
  | getClient =>
    simp only [step, stepGetClient]
    split
    · exact ⟨h1, h2⟩
    · split
      · next htr =>
        refine ⟨?_, fun _ => rfl⟩
        simpa [resolveAllWaiters] using (jsTruthyStr_isSome htr).symm
      · exact ⟨h1, fun hx => absurd (h2 hx) (by simp_all)⟩
  | inject t =>
    simp only [step, stepInject]
    split
    · exact ⟨h1, fun hx => h2 hx⟩
    · next hc =>
      refine ⟨rfl, fun _ => ?_⟩
      simpa [resolveAllWaiters] using by simp_all
  | wait =>
    simp only [step, stepWait]
    split <;> exact ⟨h1, h2⟩
  | timerFire wid =>
    simp only [step, stepTimerFire]
    split
    · exact ⟨h1, h2⟩
    · split <;> exact ⟨h1, h2⟩

theorem run_good (s : ScriptState) (es : List Event) (h : GoodState s) :
    GoodState (run s es) := by
  induction es generalizing s with
  | nil => exact h
  | cons e es ih => exact ih _ (step_good s e h)

theorem step_mono (s : ScriptState) (e : Event) (h : s.authReady = true) :
    (step s e).authReady = true := by
  cases e with
  | getClient =>
    simp only [step, stepGetClient]
    split
    · exact h
    · split
      · simp [resolveAllWaiters]
      · exact h
  | inject t =>
    simp only [step, stepInject]
    split
    · exact h
    · simp [resolveAllWaiters]
  | wait =>
    simp only [step, stepWait]
    split <;> exact h
  | timerFire wid =>
    simp only [step, stepTimerFire]
    split
    · exact h
    · split <;> exact h

theorem run_mono (s : ScriptState) (es : List Event) (h : s.authReady = true) :
    (run s es).authReady = true := by
  induction es generalizing s with
  | nil => exact h
  | cons e es ih => exact ih _ (step_mono s e h)

/-- With no injection, neither `authReady` nor `pendingAccessToken` can
become set. -/
theorem run_no_inject (es : List Event) (h : hasInject es = false) (s : ScriptState)
    (hs : s.authReady = false ∧ s.pendingAccessToken = none) :
    (run s es).authReady = false ∧ (run s es).pendingAccessToken = none := by
  induction es generalizing s with
  | nil => exact hs
  | cons e es ih =>
    have hsplit : (match e with | Event.inject _ => true | _ => false) = false ∧
        hasInject es = false := by
      have := h
      simp [hasInject] at this
      exact ⟨by cases e <;> simp_all [hasInject], by simp_all [hasInject]⟩
    refine ih hsplit.2 _ ?_
    obtain ⟨ha, hp⟩ := hs
    cases e with
    | getClient =>
      simp only [step, stepGetClient]
      split
      · exact ⟨ha, hp⟩
      · rw [if_neg (by simp [hp, jsTruthyStr])]
        exact ⟨ha, hp⟩
    | inject t => simp at hsplit
    | wait =>
      simp only [step, stepWait]
      split <;> exact ⟨ha, hp⟩
    | timerFire wid =>
      simp only [step, stepTimerFire]
      split
      · exact ⟨ha, hp⟩
      · split <;> exact ⟨ha, hp⟩

/-! ## Claim theorems -/

theorem run_before_case (n : Nat) (t : String) (ht : t ≠ "") :
    run (waitingState n) [Event.inject t, Event.getClient] =
      { clientExists := true, clientToken := some t, authReady := true,
        authReadyResolvers := [], pendingAccessToken := some t,
        waiters := List.replicate n resolvedWaiter } := by
  have htr : jsTruthyStr (some t) = true := by simp [jsTruthyStr, ht]
  simp only [run, step, stepInject, stepGetClient, waitingState, resolveAllWaiters,
    Bool.not_false, if_true, if_false, htr, fold_wrappers_from_zero]
  simp [fold_wrappers_from_zero]

theorem run_after_case (n : Nat) (t : String) :
    run (waitingState n) [Event.getClient, Event.inject t] =
      { clientExists := true, clientToken := some t, authReady := true,
        authReadyResolvers := [], pendingAccessToken := none,
        waiters := List.replicate n resolvedWaiter } := by
  simp only [run, step, stepInject, stepGetClient, waitingState, resolveAllWaiters]
  simp [jsTruthyStr, fold_wrappers_from_zero]

/-- C1 (amended): for a nonempty token, whether the injection arrives before
client construction (buffered in `pendingAccessToken`) or after the client
exists, once both have occurred `authReady` is true, the token has been
forwarded into the client's access-token injector, every waiter registered
beforehand has had its resolver invoked exactly once (its promise
fulfilled), and `authReadyResolvers` has been cleared. An empty-string
token is excluded: injected before construction it fails the construction
truthiness check (see the counterexample). -/
theorem injected_token_completes_auth (n : Nat) (t : String) (before : Bool)
    (ht : t ≠ "" ∨ before = false) :
    run initialState (List.replicate n Event.wait ++
      (if before then [Event.inject t, Event.getClient]
       else [Event.getClient, Event.inject t])) =
      { clientExists := true, clientToken := some t, authReady := true,
        authReadyResolvers := [],
        pendingAccessToken := if before then some t else none,
        waiters := List.replicate n resolvedWaiter } := by
  cases before with
  | true =>
    have ht' : t ≠ "" := by
      rcases ht with h | h
      · exact h
      · simp at h
    show run initialState (List.replicate n Event.wait ++
      [Event.inject t, Event.getClient]) = _
    rw [run_append, run_waits, run_before_case n t ht']
    rfl
  | false =>
    show run initialState (List.replicate n Event.wait ++
      [Event.getClient, Event.inject t]) = _
    rw [run_append, run_waits, run_after_case n t]
    rfl

/-- C1 witness: two prior waiters, token "tok", injection before
construction. -/
theorem injected_token_completes_auth_witness :
    run initialState (List.replicate 2 Event.wait ++
      [Event.inject "tok", Event.getClient]) =
      { clientExists := true, clientToken := some "tok", authReady := true,
        authReadyResolvers := [], pendingAccessToken := some "tok",
        waiters := List.replicate 2 resolvedWaiter } := by
  have h := injected_token_completes_auth 2 "tok" true (Or.inl (by decide))
  simpa using h

/-- C1 counterexample: the claim as stated fails for the empty-string token
injected before construction — after both the injection and the client
construction have occurred, `authReady` is still false and no token was
forwarded into the client (`if (pendingAccessToken)` treats `''` as
absent). -/
theorem empty_token_before_construction_not_ready :
    (run initialState [Event.inject "", Event.getClient]).authReady = false ∧
    (run initialState [Event.inject "", Event.getClient]).clientToken = none ∧
    (run initialState [Event.inject "", Event.getClient]).clientExists = true := by
  decide

/-- C2: the claim's removal property is not what the code does. The timeout
callback runs `authReadyResolvers.indexOf(resolve)`, but the array holds
the wrapper closure pushed by `waitForAuth`, a different function value, so
`indexOf` returns -1 and nothing is spliced out: after the timeout fires,
the promise is rejected with the timeout message, yet the waiter's entry is
still in `authReadyResolvers`, and a subsequent injection invokes that
stale resolver (counted by `resolveCalls`; the promise stays rejected). -/
theorem timeout_leaks_waiter_entry :
    (run initialState [Event.getClient, Event.wait, Event.timerFire 0]).waiters =
      [{ promise := .rejected AUTH_TIMEOUT_MSG, timerActive := false, resolveCalls := 0 }] ∧
    (run initialState [Event.getClient, Event.wait, Event.timerFire 0]).authReadyResolvers =
      [ResolverFn.wrapper 0] ∧
    (run initialState [Event.getClient, Event.wait, Event.timerFire 0,
        Event.inject "tok"]).authReadyResolvers = [] ∧
    (run initialState [Event.getClient, Event.wait, Event.timerFire 0,
        Event.inject "tok"]).waiters =
      [{ promise := .rejected AUTH_TIMEOUT_MSG, timerActive := false, resolveCalls := 1 }] := by
  decide

/-- C3: over every operation sequence from module load, `authReady` is true
exactly when a token has been injected into the client's injector (a
pending token buffered before the client exists implies neither), an
injected token implies the client exists, and once `authReady` is true it
stays true over any further operations. -/
theorem auth_ready_invariant (es fs : List Event) :
    ((run initialState es).authReady = true ↔
      (run initialState es).clientToken.isSome = true) ∧
    ((run initialState es).clientToken.isSome = true →
      (run initialState es).clientExists = true) ∧
    ((run initialState es).authReady = true →
      (run (run initialState es) fs).authReady = true) := by
  have hg : GoodState (run initialState es) :=
    run_good initialState es ⟨rfl, by intro h; simp [initialState] at h⟩
  exact ⟨by rw [hg.1], hg.2, fun h => run_mono _ fs h⟩

/-- C3 witness: a concrete sequence reaching the ready state, kept ready. -/
theorem auth_ready_invariant_witness :
    (run initialState [Event.getClient, Event.inject "t"]).clientToken.isSome = true ∧
    (run (run initialState [Event.getClient, Event.inject "t"])
        [Event.wait, Event.getClient]).authReady = true := by
  refine ⟨by decide, ?_⟩
  exact (auth_ready_invariant [Event.getClient, Event.inject "t"]
    [Event.wait, Event.getClient]).2.2 (by decide)

/-- C5: `detectPageContext` is a total function of the pathname and the
listed DOM selector presences alone (no network, no credential gate, no
failure path in the embedding); on pathname `/product/widget-123` with no
DOM hooks present it classifies the page as a product page only. -/
theorem product_page_context_pure :
    detectPageContext "/product/widget-123" noDomSignals =
      { isProductPage := true, isCartPage := false,
        isBlogPage := false, isMemberArea := false } := by
  decide

/-- C7 counterexample: with blog installed but a product page context
(`isProductPage = true`, `isBlogPage = false`), `wix_get_blog_post` is NOT
registered — blog tool registration is not independent of page context.
(Also: the stores group has six tools, not seven.) -/
theorem blog_post_gating_counterexample :
    "wix_get_blog_post" ∉ initRegisteredTools
      { hasStores := false, hasBlog := true, hasMembers := false }
      { isProductPage := true, isCartPage := false,
        isBlogPage := false, isMemberArea := false } ∧
    "wix_get_blog_posts" ∈ initRegisteredTools
      { hasStores := false, hasBlog := true, hasMembers := false }
      { isProductPage := true, isCartPage := false,
        isBlogPage := false, isMemberArea := false } ∧
    initRegisteredTools { hasStores := true, hasBlog := false, hasMembers := false }
      { isProductPage := false, isCartPage := false,
        isBlogPage := false, isMemberArea := false } =
      ["wix_get_site_structure", "wix_get_current_page"] ++ storeToolNames := by
  decide

/-- C7 (amended): registration gating per tool: `wix_get_blog_posts` iff
blog detected; `wix_get_blog_post` iff blog detected AND the page context
is a blog page or not a product page; `wix_get_member_info` iff members
detected; each of the six commerce tools iff stores detected. -/
theorem tool_group_gating (apps : InstalledApps) (ctx : PageContext) :
    ("wix_get_blog_posts" ∈ initRegisteredTools apps ctx ↔ apps.hasBlog = true) ∧
    ("wix_get_blog_post" ∈ initRegisteredTools apps ctx ↔
      apps.hasBlog = true ∧ (ctx.isBlogPage || !ctx.isProductPage) = true) ∧
    ("wix_get_member_info" ∈ initRegisteredTools apps ctx ↔ apps.hasMembers = true) ∧
    (∀ name ∈ storeToolNames,
      (name ∈ initRegisteredTools apps ctx ↔ apps.hasStores = true)) := by
  obtain ⟨hs, hb, hm⟩ := apps
  obtain ⟨pp, cp, bp, ma⟩ := ctx
  cases hs <;> cases hb <;> cases hm <;> cases pp <;> cases cp <;> cases bp <;>
    cases ma <;> decide

/-- C7 witness: all apps installed on a neutral page registers a commerce
tool and the single blog-post tool. -/
theorem tool_group_gating_witness :
    "wix_search_products" ∈ initRegisteredTools
      { hasStores := true, hasBlog := true, hasMembers := true }
      { isProductPage := false, isCartPage := false,
        isBlogPage := false, isMemberArea := false } ∧
    "wix_get_blog_post" ∈ initRegisteredTools
      { hasStores := true, hasBlog := true, hasMembers := true }
      { isProductPage := false, isCartPage := false,
        isBlogPage := false, isMemberArea := false } := by
  refine ⟨?_, ?_⟩
  · exact ((tool_group_gating _ _).2.2.2 "wix_search_products" (by decide)).mpr rfl
  · exact ((tool_group_gating _ _).2.1).mpr ⟨rfl, by decide⟩

/-- C4: each capability flag holds exactly when the known app id appears as
some page's `applicationId` or some lowercased prefix contains one of the
domain keywords; a structure carrying the commerce app id, or the prefix
"/shop-now", yields `hasStores`; a failed structure query yields all-false
flags, under which `initWebMCP` registers only the two baseline tools
(zero gated tools). -/
theorem capability_detection (st : SiteStructure) (msg : String) :
    ((detectInstalledAppsFromAPI (.ok st)).hasStores = true ↔
      (∃ pg ∈ st.pages, pg.applicationId = some WIX_STORES_APP_ID) ∨
      (∃ p ∈ st.prefixes.getD [], ∃ kw ∈ ["product", "shop", "store", "cart"],
        jsIncludes (strToLower (p.prefixPath.getD "")) kw = true)) ∧
    ((detectInstalledAppsFromAPI (.ok st)).hasBlog = true ↔
      (∃ pg ∈ st.pages, pg.applicationId = some WIX_BLOG_APP_ID) ∨
      (∃ p ∈ st.prefixes.getD [], ∃ kw ∈ ["blog", "post"],
        jsIncludes (strToLower (p.prefixPath.getD "")) kw = true)) ∧
    ((detectInstalledAppsFromAPI (.ok st)).hasMembers = true ↔
      (∃ pg ∈ st.pages, pg.applicationId = some WIX_MEMBERS_APP_ID) ∨
      (∃ p ∈ st.prefixes.getD [], ∃ kw ∈ ["account", "member", "profile"],
        jsIncludes (strToLower (p.prefixPath.getD "")) kw = true)) ∧
    (detectInstalledAppsFromAPI
      (.ok { pages := [{ applicationId := some WIX_STORES_APP_ID }],
             prefixes := none })).hasStores = true ∧
    (detectInstalledAppsFromAPI
      (.ok { pages := [],
             prefixes := some [{ prefixPath := some "/shop-now" }] })).hasStores = true ∧
    detectInstalledAppsFromAPI (.error msg) =
      { hasStores := false, hasBlog := false, hasMembers := false } ∧
    (∀ ctx, initRegisteredTools (detectInstalledAppsFromAPI (.error msg)) ctx =
      ["wix_get_site_structure", "wix_get_current_page"]) := by
  refine ⟨?_, ?_, ?_, by decide, by decide, rfl, fun ctx => rfl⟩ <;>
  · simp only [detectInstalledAppsFromAPI, Bool.or_eq_true, List.any_eq_true,
      List.mem_map, List.contains_iff_exists_mem_beq, List.mem_filterMap, beq_iff_eq]
    constructor
    · rintro (⟨a, ⟨pg, hpg, ha⟩, rfl⟩ | ⟨p, ⟨q, hq, rfl⟩, hk⟩)
      · exact Or.inl ⟨pg, hpg, ha⟩
      · refine Or.inr ⟨q, hq, ?_⟩
        simpa [or_assoc] using hk
    · rintro (⟨pg, hpg, ha⟩ | ⟨q, hq, hk⟩)
      · exact Or.inl ⟨_, ⟨pg, hpg, ha⟩, rfl⟩
      · refine Or.inr ⟨_, ⟨q, hq, rfl⟩, ?_⟩
        simpa [or_assoc] using hk

/-- C4 witness: the "/shop-now" prefix detection, and the baseline-only
registration after a failed structure query, at concrete inputs. -/
theorem capability_detection_witness :
    (detectInstalledAppsFromAPI
      (.ok { pages := [],
             prefixes := some [{ prefixPath := some "/shop-now" }] })).hasStores = true ∧
    initRegisteredTools (detectInstalledAppsFromAPI (.error "network down"))
      { isProductPage := false, isCartPage := false,
        isBlogPage := false, isMemberArea := false } =
      ["wix_get_site_structure", "wix_get_current_page"] :=
  ⟨(capability_detection
      { pages := [], prefixes := some [{ prefixPath := some "/shop-now" }] }
      "network down").2.2.2.2.1,
   (capability_detection { pages := [], prefixes := none } "network down").2.2.2.2.2.2
     { isProductPage := false, isCartPage := false,
       isBlogPage := false, isMemberArea := false }⟩

/-- C6: the empty-versus-error reinterpretation is per tool: the cart fetch
and cart-totals fetch turn a caught error containing "404" into a
successful empty cart / zeroed totals and pass any other error through as a
failure, while the by-id product and blog-post fetches surface a not-found
result as a `success:false` error (never a successful empty result) and
pass remote errors through as failures. -/
theorem not_found_classification (msg : String) :
    (jsIncludes msg "404" = true →
      wixGetCartExec (.ok ()) (.error msg) =
        .success { id := none, items := [], totalQuantity := 0, currency := none } ∧
      wixGetCartTotalsExec (.ok ()) (.error msg) =
        .success { subtotal := some "$0.00", total := some "$0.00", tax := some "$0.00",
                   discount := some "$0.00", currency := none }) ∧
    (jsIncludes msg "404" = false →
      wixGetCartExec (.ok ()) (.error msg) = .failure msg ∧
      wixGetCartTotalsExec (.ok ()) (.error msg) = .failure msg) ∧
    (∀ pid f, f pid = Except.ok none →
      wixGetProductExec (.ok ()) pid f = .failure "Product not found") ∧
    (∀ pid f m, f pid = Except.error m →
      wixGetProductExec (.ok ()) pid f = .failure m) ∧
    (∀ pid f p, f pid = Except.ok (some p) →
      wixGetProductExec (.ok ()) pid f = .success (formatProduct p)) ∧
    (∀ pid g, g pid = Except.ok none →
      wixGetBlogPostExec (.ok ()) pid g = .failure "Blog post not found") ∧
    (∀ pid g m, g pid = Except.error m →
      wixGetBlogPostExec (.ok ()) pid g = .failure m) := by
  refine ⟨fun h => ⟨?_, ?_⟩, fun h => ⟨?_, ?_⟩, ?_, ?_, ?_, ?_, ?_⟩
  · simp [wixGetCartExec, except_bind_ok, h]
  · simp [wixGetCartTotalsExec, except_bind_ok, h]
  · simp [wixGetCartExec, except_bind_ok, h]
  · simp [wixGetCartTotalsExec, except_bind_ok, h]
  · intro pid f hf
    simp [wixGetProductExec, hf]
  · intro pid f m hf
    simp [wixGetProductExec, hf]
  · intro pid f p hf
    simp [wixGetProductExec, hf]
  · intro pid g hg
    simp [wixGetBlogPostExec, hg]
  · intro pid g m hg
    simp [wixGetBlogPostExec, hg]

/-- C6 witness: a "404" cart failure, a non-404 cart failure, and a
not-found product fetch. -/
theorem not_found_classification_witness :
    wixGetCartExec (.ok ()) (.error "status 404") =
      .success { id := none, items := [], totalQuantity := 0, currency := none } ∧
    wixGetCartExec (.ok ()) (.error "boom") = .failure "boom" ∧
    wixGetProductExec (.ok ()) "p1" (fun _ => .ok none) = .failure "Product not found" :=
  ⟨((not_found_classification "status 404").1 (by decide)).1,
   ((not_found_classification "boom").2.1 (by decide)).1,
   (not_found_classification "x").2.2.1 "p1" (fun _ => .ok none) rfl⟩

/-- C8: every gated tool's handler awaits the credential gate first: with
the gate rejected, the handler returns the gate's failure message whatever
the remote-call outcome argument is (so no remote call is needed); and if
the host never calls the injection entry point, `authReady` stays false,
the timer of a `waitForAuth` waiter rejects it with the timeout message,
and each gated handler resolves with that message as a failure. -/
theorem gated_tools_reject_without_injection (es : List Event)
    (h : hasInject es = false) :
    (run initialState es).authReady = false ∧
    ((run (run initialState es)
        [Event.wait, Event.timerFire (run initialState es).waiters.length]).waiters[
          (run initialState es).waiters.length]? =
      some { promise := .rejected AUTH_TIMEOUT_MSG, timerActive := false,
             resolveCalls := 0 }) ∧
    (∀ lim off f, wixGetBlogPostsExec (.error AUTH_TIMEOUT_MSG) lim off f =
      .failure AUTH_TIMEOUT_MSG) ∧
    (∀ pid g, wixGetBlogPostExec (.error AUTH_TIMEOUT_MSG) pid g =
      .failure AUTH_TIMEOUT_MSG) ∧
    (∀ g, wixGetMemberInfoExec (.error AUTH_TIMEOUT_MSG) g = .failure AUTH_TIMEOUT_MSG) ∧
    (∀ q lim f, wixSearchProductsExec (.error AUTH_TIMEOUT_MSG) q lim f =
      .failure AUTH_TIMEOUT_MSG) ∧
    (∀ pid g, wixGetProductExec (.error AUTH_TIMEOUT_MSG) pid g =
      .failure AUTH_TIMEOUT_MSG) ∧
    (∀ lim off f, wixListProductsExec (.error AUTH_TIMEOUT_MSG) lim off f =
      .failure AUTH_TIMEOUT_MSG) ∧
    (∀ pid qty o pj add, wixAddToCartExec (.error AUTH_TIMEOUT_MSG) pid qty o pj add =
      .failure AUTH_TIMEOUT_MSG) ∧
    (∀ g, wixGetCartExec (.error AUTH_TIMEOUT_MSG) g = .failure AUTH_TIMEOUT_MSG) ∧
    (∀ g, wixGetCartTotalsExec (.error AUTH_TIMEOUT_MSG) g = .failure AUTH_TIMEOUT_MSG) := by
  have ha : (run initialState es).authReady = false :=
    (run_no_inject es h initialState ⟨rfl, rfl⟩).1
  refine ⟨ha, ?_, fun lim off f => rfl, fun pid g => rfl,
    fun g => by simp only [wixGetMemberInfoExec, except_bind_error]; decide,
    fun q lim f => rfl, fun pid g => rfl, fun lim off f => rfl,
    fun pid qty o pj add => rfl,
    fun g => by simp only [wixGetCartExec, except_bind_error]; decide,
    fun g => by simp only [wixGetCartTotalsExec, except_bind_error]; decide⟩
  have h1 : (run initialState es).waiters ++ [freshWaiter] =
      (stepWait (run initialState es)).waiters := by
    rw [stepWait, if_neg (by simp [ha])]
  show (stepTimerFire (stepWait (run initialState es))
    (run initialState es).waiters.length).waiters[(run initialState es).waiters.length]? = _
  rw [stepTimerFire]
  rw [stepWait, if_neg (by simp [ha])]
  simp only []
  rw [concat_getElem_length]
  simp only [freshWaiter, if_pos rfl]
  have h2 := updateWaiter_append (run initialState es).waiters []
    { promise := .pending, timerActive := true, resolveCalls := 0 }
    (fun w0 => { w0 with timerActive := false
                         promise := match w0.promise with
                           | .pending => .rejected AUTH_TIMEOUT_MSG
                           | p => p })
  rw [h2]
  exact concat_getElem_length _ _

/-- C8 witness: a run without injection, and the cart handler under the
rejected gate. -/
theorem gated_tools_reject_without_injection_witness :
    (run initialState [Event.getClient, Event.wait]).authReady = false ∧
    wixGetCartExec (.error AUTH_TIMEOUT_MSG)
      (.ok { id := none, lineItems := none, currency := none }) =
      .failure AUTH_TIMEOUT_MSG := by
  have h := gated_tools_reject_without_injection [Event.getClient, Event.wait] (by decide)
  exact ⟨h.1, h.2.2.2.2.2.2.2.2.2.1 _⟩

/-- C9: tool handlers convert every failure into the uniform
`{success:false, error}` result: the rejected credential gate, an
unparsable JSON `options` parameter (fixed invalid-options message), and a
remote-call error each yield a failure result, and the non-failing path
yields a success result — the handler's value is always a `ToolResult`,
never an escaping exception. -/
theorem handlers_catch_all_failures :
    (∀ msg pid qty o pj add,
      wixAddToCartExec (Except.error msg) pid qty o pj add = .failure msg) ∧
    (∀ pid qty s pj add, s ≠ "" → pj s = none →
      wixAddToCartExec (.ok ()) pid qty (some s) pj add =
        .failure "Invalid options format. Must be valid JSON.") ∧
    (∀ pid qty pj msg,
      wixAddToCartExec (.ok ()) pid qty none pj (fun _ => .error msg) = .failure msg) ∧
    (∀ pid qty pj cart,
      wixAddToCartExec (.ok ()) pid qty none pj (fun _ => .ok cart) =
        .success (formatCart cart)) ∧
    (∀ msg lim off f, wixGetBlogPostsExec (.error msg) lim off f = .failure msg) ∧
    (∀ lim off msg,
      wixGetBlogPostsExec (.ok ()) lim off (fun _ _ => .error msg) = .failure msg) ∧
    (∀ lim off ps, ∃ pay,
      wixGetBlogPostsExec (.ok ()) lim off (fun _ _ => .ok ps) = .success pay) := by
  refine ⟨fun msg pid qty o pj add => rfl, ?_, fun pid qty pj msg => rfl,
    fun pid qty pj cart => rfl, fun msg lim off f => rfl,
    fun lim off msg => rfl, fun lim off ps => ⟨_, rfl⟩⟩
  intro pid qty s pj add hs hp
  simp [wixAddToCartExec, jsTruthyStr, hs, hp]

/-- C9 witness: concrete instances of the three failure modes and the
success path of `wix_add_to_cart`. -/
theorem handlers_catch_all_failures_witness :
    wixAddToCartExec (Except.error "down") "p" none none (fun _ => none)
      (fun _ => .ok none) = .failure "down" ∧
    wixAddToCartExec (.ok ()) "p" none (some "notjson") (fun _ => none)
      (fun _ => .ok none) = .failure "Invalid options format. Must be valid JSON." ∧
    wixAddToCartExec (.ok ()) "p" none none (fun _ => none) (fun _ => .ok none) =
      .success (formatCart none) :=
  ⟨handlers_catch_all_failures.1 "down" "p" none (some "notjson") (fun _ => none)
      (fun _ => .ok none) ▸ rfl,
   handlers_catch_all_failures.2.1 "p" none "notjson" (fun _ => none)
      (fun _ => .ok none) (by decide) rfl,
   handlers_catch_all_failures.2.2.2.1 "p" none (fun _ => none) none⟩

/-- C10: the effective page size of the three list-style handlers is
`Math.min(limit || 10, 100)`: it never exceeds 100 (each handler's output
is unchanged by altering the remote's behavior at page sizes above 100), a
missing or zero limit defaults to 10, and a nonzero supplied limit becomes
`min(limit, 100)`. -/
theorem page_size_clamped :
    (∀ l : Option Int, min (jsOrNum l 10) 100 ≤ 100) ∧
    (min (jsOrNum none 10) 100 = 10 ∧ min (jsOrNum (some 0) 10) 100 = 10) ∧
    (∀ v : Int, v ≠ 0 → min (jsOrNum (some v) 10) 100 = min v 100) ∧
    (∀ auth lim off f g, (∀ a b, a ≤ 100 → f a b = g a b) →
      wixGetBlogPostsExec auth lim off f = wixGetBlogPostsExec auth lim off g) ∧
    (∀ auth q lim f g, (∀ s a, a ≤ 100 → f s a = g s a) →
      wixSearchProductsExec auth q lim f = wixSearchProductsExec auth q lim g) ∧
    (∀ auth lim off f g, (∀ a b, a ≤ 100 → f a b = g a b) →
      wixListProductsExec auth lim off f = wixListProductsExec auth lim off g) := by
  refine ⟨fun l => min_le_right _ _, ⟨by decide, by decide⟩, ?_, ?_, ?_, ?_⟩
  · intro v hv
    simp [jsOrNum, hv]
  · intro auth lim off f g hfg
    cases auth with
    | error m => rfl
    | ok u =>
      simp only [wixGetBlogPostsExec]
      rw [hfg _ _ (min_le_right _ _)]
  · intro auth q lim f g hfg
    cases auth with
    | error m => rfl
    | ok u =>
      simp only [wixSearchProductsExec]
      rw [hfg _ _ (min_le_right _ _)]
  · intro auth lim off f g hfg
    cases auth with
    | error m => rfl
    | ok u =>
      simp only [wixListProductsExec]
      rw [hfg _ _ (min_le_right _ _)]

/-- C10 witness: with a requested limit of 250, the blog-list handler
cannot distinguish a remote that errors above page size 100 from one that
never errors. -/
theorem page_size_clamped_witness :
    min (jsOrNum (some 250) 10) 100 ≤ 100 ∧
    wixGetBlogPostsExec (.ok ()) (some 250) none
        (fun _ _ => Except.ok ([] : List BlogPost)) =
      wixGetBlogPostsExec (.ok ()) (some 250) none
        (fun a _ => if a ≤ 100 then Except.ok [] else Except.error "too big") := by
  refine ⟨page_size_clamped.1 (some 250), ?_⟩
  exact page_size_clamped.2.2.2.1 (.ok ()) (some 250) none _ _
    (fun a b hab => by simp [hab])

end WebMCP
